import Mathlib

/-!
Verification development for the SIMUL8 physics sandbox (src/app.js).

The source is a single JavaScript file.  JavaScript numbers are modelled as
rationals (ℚ); where the source computes a square root (Math.hypot,
Math.pow(r2, 1.5)) the root is passed as an extra argument constrained by a
hypothesis (0 ≤ r and r ^ 2 = dx ^ 2 + dy ^ 2), since square roots of
rationals are not rational.  Where IEEE NaN propagation matters (the
degenerate zero-distance collision) values are modelled as Option ℚ, with
none standing for NaN.
-/

namespace Simul8

/-- JS truthiness helper: models `x || d` for a numeric `x` (0 is falsy,
so `x || d` yields `d` when `x = 0`). -/
def jsOr (x d : ℚ) : ℚ := if x = 0 then d else x

/-- Models `parseFloat(p) || d` for a URL parameter: `none` stands for an
absent or non-numeric parameter (parseFloat gives NaN, which is falsy);
a parsed 0 is also falsy, so it is replaced by the default as well.
Used by every chart branch of app.js (e.g. lines 554-555, 609-611). -/
def orDefault (v : Option ℚ) (d : ℚ) : ℚ :=
  match v with
  | none => d
  | some x => jsOr x d

/-- `params.speed` parsing of the projectile chart branch (app.js line 554). -/
def projChartSpeed (v : Option ℚ) : ℚ := orDefault v 25

/-- `params.angle` parsing of the projectile chart branch (app.js line 555). -/
def projChartAngle (v : Option ℚ) : ℚ := orDefault v 45

/-- One body of the collision simulation (app.js lines 195-196):
position, velocity, radius, mass. -/
structure Body where
  x : ℚ
  y : ℚ
  vx : ℚ
  vy : ℚ
  r : ℚ
  m : ℚ
deriving DecidableEq

/-- The restitution clamp of the per-tick resolver (app.js line 244):
`Math.max(0, Math.min(1, e))`. -/
def eClamp (e : ℚ) : ℚ := max 0 (min 1 e)

/-- The undefined-check of app.js line 244: `params.e!==undefined?params.e:1`. -/
def eRaw (e : Option ℚ) : ℚ :=
  match e with
  | none => 1
  | some x => x

/-- Projection of a velocity onto the collision normal (nx, ny)
(app.js lines 239, 241: `v1n = ball1.vx*nx + ball1.vy*ny`). -/
def normComp (nx ny vx vy : ℚ) : ℚ := vx * nx + vy * ny

/-- Projection of a velocity onto the tangent (tx, ty) = (-ny, nx)
(app.js lines 237, 240, 242). -/
def tangComp (nx ny vx vy : ℚ) : ℚ := vx * (-ny) + vy * nx

/-- The 1-D restitution update of the normal velocity components
(app.js lines 250-251). -/
def resolveNormal (m1 m2 e v1n v2n : ℚ) : ℚ × ℚ :=
  ((m1 * v1n + m2 * v2n + m2 * e * (v2n - v1n)) / (m1 + m2),
   (m1 * v1n + m2 * v2n + m1 * e * (v1n - v2n)) / (m1 + m2))

/-- The pairwise collision branch of `update` (app.js lines 229-264).
`dist` is `Math.hypot(dx, dy)`; since that square root is not rational it
is passed explicitly, and callers constrain it by
`dist ^ 2 = (b2.x - b1.x) ^ 2 + (b2.y - b1.y) ^ 2` and `0 ≤ dist`.
`e` is the raw restitution; the clamp of line 244 is applied inside,
exactly as in the source.  Returns both updated bodies; when the overlap
guard `dist ≤ r1 + r2` fails the bodies are returned unchanged. -/
def resolvePair (e dist : ℚ) (b1 b2 : Body) : Body × Body :=
  if dist ≤ b1.r + b2.r then
    let nx := (b2.x - b1.x) / dist
    let ny := (b2.y - b1.y) / dist
    let v1n := normComp nx ny b1.vx b1.vy
    let v1t := tangComp nx ny b1.vx b1.vy
    let v2n := normComp nx ny b2.vx b2.vy
    let v2t := tangComp nx ny b2.vx b2.vy
    let ec := eClamp e
    let vp := resolveNormal b1.m b2.m ec v1n v2n
    let correction := ((b1.r + b2.r) - dist) / 2
    ({ b1 with
        vx := vp.1 * nx + v1t * (-ny)
        vy := vp.1 * ny + v1t * nx
        x := b1.x - nx * correction
        y := b1.y - ny * correction },
     { b2 with
        vx := vp.2 * nx + v2t * (-ny)
        vy := vp.2 * ny + v2t * nx
        x := b2.x + nx * correction
        y := b2.y + ny * correction })
  else (b1, b2)

/-- The analytic collision summary of the chart view (app.js lines 609-614):
parses the five parameters with `parseFloat(p) || default` and applies the
restitution formula with NO clamp on `e`. -/
def chartCollision (m1v m2v v1v v2v ev : Option ℚ) : ℚ × ℚ :=
  let m1 := orDefault m1v 2
  let m2 := orDefault m2v 1
  let u1 := orDefault v1v 3
  let u2 := orDefault v2v (-1)
  let e := orDefault ev 1
  ((m1 * u1 + m2 * u2 + m2 * e * (u2 - u1)) / (m1 + m2),
   (m1 * u1 + m2 * u2 + m1 * e * (u1 - u2)) / (m1 + m2))

/-! ### Session lifecycle models

Each simulation closure of app.js owns mutable state and returns
`{ start, pause, reset, params }`.  The state of each closure is modelled
as a structure, and each lifecycle function and the per-frame `step` as a
state-to-state function.  Rendering calls (canvas drawing) carry no
simulation state and are dropped, except where `draw()` itself mutates
state (the circular trace push, app.js line 158). -/

/-- projectileSim state (app.js lines 22-69): elapsed time `t` and the
`running` flag. -/
structure ProjState where
  t : ℚ
  running : Bool
deriving DecidableEq

/-- projectileSim `step(dt)` (lines 26-31): if not running, return;
else advance `t` by `dt`. -/
def projStep (dt : ℚ) (s : ProjState) : ProjState :=
  if s.running then { t := s.t + dt, running := s.running } else s

/-- projectileSim `start()` (line 64): sets `t = 0`, `running = true`. -/
def projStart (_s : ProjState) : ProjState := { t := 0, running := true }

/-- projectileSim `pause()` (line 65): sets `running = false`. -/
def projPause (s : ProjState) : ProjState := { s with running := false }

/-- projectileSim `reset()` (line 66): sets `t = 0` (running untouched). -/
def projReset (s : ProjState) : ProjState := { s with t := 0 }

/-- pendulumSim parameters (app.js line 405 preset shape). -/
structure PendParams where
  length : ℚ
  g : ℚ
  theta0 : ℚ
deriving DecidableEq

/-- pendulumSim state (app.js line 73). -/
structure PendState where
  theta : ℚ
  omega : ℚ
  t : ℚ
  running : Bool
deriving DecidableEq

/-- pendulumSim initial state (line 73): `theta = params.theta0`,
`omega = 0`, `t = 0`, `running = true`. -/
def pendInit (p : PendParams) : PendState :=
  { theta := p.theta0, omega := 0, t := 0, running := true }

/-- pendulumSim `step(dt)` (lines 74-83): small-angle semi-implicit Euler:
`alpha = -(g/L)*theta`; `omega += alpha*dt`; `theta += omega*dt`. -/
def pendStep (p : PendParams) (dt : ℚ) (s : PendState) : PendState :=
  if s.running then
    let alpha := -(p.g / p.length) * s.theta
    let omega := s.omega + alpha * dt
    { theta := s.theta + omega * dt, omega := omega, t := s.t + dt,
      running := s.running }
  else s

/-- pendulumSim `start` (line 98) is the empty function `start(){}`. -/
def pendStart (s : PendState) : PendState := s

/-- pendulumSim `pause` (line 98) is the empty function `pause(){}`:
it does NOT set `running = false`. -/
def pendPause (s : PendState) : PendState := s

/-- pendulumSim `reset` (line 98) is the empty function `reset(){}`. -/
def pendReset (s : PendState) : PendState := s

/-- springSim parameters (app.js line 406 preset shape). -/
structure SpringParams where
  k : ℚ
  m : ℚ
  x0 : ℚ
deriving DecidableEq

/-- springSim state (app.js line 103). -/
structure SpringState where
  x : ℚ
  v : ℚ
  t : ℚ
  running : Bool
deriving DecidableEq

/-- springSim initial state (line 103). -/
def springInit (p : SpringParams) : SpringState :=
  { x := p.x0, v := 0, t := 0, running := true }

/-- springSim `step(dt)` (lines 104-113): `a = -(k/m)*x`; `v += a*dt`;
`x += v*dt`. -/
def springStep (p : SpringParams) (dt : ℚ) (s : SpringState) : SpringState :=
  if s.running then
    let a := -(p.k / p.m) * s.x
    let v := s.v + a * dt
    { x := s.x + v * dt, v := v, t := s.t + dt, running := s.running }
  else s

/-- springSim `start` (line 131) is the empty function. -/
def springStart (s : SpringState) : SpringState := s

/-- springSim `pause` (line 131) is the empty function: it does NOT stop
the animation. -/
def springPause (s : SpringState) : SpringState := s

/-- springSim `reset` (line 131) is the empty function. -/
def springReset (s : SpringState) : SpringState := s

/-- The circular-motion trace push (app.js lines 139, 158-159):
`trace.push({x,y}); if(trace.length > maxTrace) trace.shift();`
with `maxTrace = 120`; `shift` removes the OLDEST entry (front). -/
def pushTrace (tr : List (ℚ × ℚ)) (p : ℚ × ℚ) : List (ℚ × ℚ) :=
  if 120 < (tr ++ [p]).length then (tr ++ [p]).tail else tr ++ [p]

/-- Driving the trace buffer with the stream `f` of recorded positions for
`n` ticks (tick k, 0-indexed, records `f k`). -/
def traceAfter (f : ℕ → ℚ × ℚ) (n : ℕ) : List (ℚ × ℚ) :=
  (List.range n).foldl (fun tr k => pushTrace tr (f k)) []

/-- circularSim state (app.js lines 136-139): current angle, the trace
FIFO, and the running flag. -/
structure CircState where
  angle : ℚ
  trace : List (ℚ × ℚ)
  running : Bool
deriving DecidableEq

/-- circularSim initial state: `angle = 0`, empty trace, running. -/
def circInit : CircState := { angle := 0, trace := [], running := true }

/-- circularSim `step` followed by `draw` (lines 140-145, 154-158):
`angle += angularSpeed * 0.016`, then `draw()` records the position at the
new angle into the trace.  `posFn` abstracts the trigonometric position
`(cx + r*cos angle, cy + r*sin angle)` of lines 155-156, which is not
rational; the claims about circularSim do not depend on its values. -/
def circStep (posFn : ℚ → ℚ × ℚ) (w : ℚ) (s : CircState) : CircState :=
  if s.running then
    let a := s.angle + w * (16 / 1000)
    { angle := a, trace := pushTrace s.trace (posFn a), running := s.running }
  else s

/-- circularSim `start()` (line 182): `running = true`, nothing else. -/
def circStart (s : CircState) : CircState := { s with running := true }

/-- circularSim `pause()` (line 183): `running = false`. -/
def circPause (s : CircState) : CircState := { s with running := false }

/-- circularSim `reset()` (line 184): `angle = 0; trace.length = 0;` then
`draw()`, which pushes the position at angle 0 into the emptied trace. -/
def circReset (posFn : ℚ → ℚ × ℚ) (s : CircState) : CircState :=
  { angle := 0, trace := pushTrace [] (posFn 0), running := s.running }

/-- collisionSim parameters (app.js line 408 preset shape). -/
structure CollParams where
  m1 : ℚ
  m2 : ℚ
  v1 : ℚ
  v2 : ℚ
  r1 : ℚ
  r2 : ℚ
  e : ℚ
deriving DecidableEq

/-- collisionSim state: the two balls and the running flag. -/
structure CollState where
  b1 : Body
  b2 : Body
  running : Bool
deriving DecidableEq

/-- collisionSim `placeInitial()` (app.js lines 198-207): positions at
(0.25 W, H/2) and (0.75 W, H/2), velocities `(params.v1||0) * 20` px/s,
masses `params.m1`, `params.m2`, radii `params.r1 || 20`. -/
def placeInitial (p : CollParams) (W H : ℚ) : Body × Body :=
  ({ x := W * (25 / 100), y := H / 2, vx := jsOr p.v1 0 * 20, vy := 0,
     r := jsOr p.r1 20, m := p.m1 },
   { x := W * (75 / 100), y := H / 2, vx := jsOr p.v2 0 * 20, vy := 0,
     r := jsOr p.r2 20, m := p.m2 })

/-- collisionSim `start()` (line 281): `running = true; placeInitial()`. -/
def collStart (p : CollParams) (W H : ℚ) (_s : CollState) : CollState :=
  { b1 := (placeInitial p W H).1, b2 := (placeInitial p W H).2,
    running := true }

/-- collisionSim `pause()` (line 282): `running = false`. -/
def collPause (s : CollState) : CollState := { s with running := false }

/-- collisionSim `reset()` (line 283): `running = false; placeInitial();
draw(); running = true;` — net effect: re-placed bodies, running. -/
def collReset (p : CollParams) (W H : ℚ) (_s : CollState) : CollState :=
  { b1 := (placeInitial p W H).1, b2 := (placeInitial p W H).2,
    running := true }

/-- collisionSim `step()` (lines 208-213): if not running, return; else
`update(0.016)` then `draw()`.  The body of `update` (integration, wall
bounce, pairwise resolution) is abstracted as `u`; the pause/tick claims
hold for every `u`. -/
def collTick (u : CollState → CollState) (s : CollState) : CollState :=
  if s.running then u s else s

/-- electricSim charge record (app.js lines 300-303). -/
structure Charge where
  x : ℚ
  y : ℚ
  q : ℚ
deriving DecidableEq

/-- electricSim state: the two charges and the running flag. -/
structure ElecState where
  charges : List Charge
  running : Bool
deriving DecidableEq

/-- electricSim `placeCharges()` (lines 297-304): charges at
(0.33 W, 0.5 H) and (0.67 W, 0.5 H) with `params.q1 || 3` and
`params.q2 || -3`. -/
def placeCharges (q1 q2 W H : ℚ) : List Charge :=
  [{ x := W * (33 / 100), y := H * (50 / 100), q := jsOr q1 3 },
   { x := W * (67 / 100), y := H * (50 / 100), q := jsOr q2 (-3) }]

/-- electricSim `start()` (line 355): `placeCharges(); running = true;`. -/
def elecStart (q1 q2 W H : ℚ) (_s : ElecState) : ElecState :=
  { charges := placeCharges q1 q2 W H, running := true }

/-- electricSim `pause()` (line 357): `running = false`. -/
def elecPause (s : ElecState) : ElecState := { s with running := false }

/-- electricSim `reset()` (line 358): `placeCharges(); drawField();`
(running untouched). -/
def elecReset (q1 q2 W H : ℚ) (s : ElecState) : ElecState :=
  { charges := placeCharges q1 q2 W H, running := s.running }

/-- electricSim `timer()` (line 356): `if(!running) return; drawField();`
— `drawField` only renders, so a tick never mutates the state. -/
def elecTick (s : ElecState) : ElecState := s

/-! ### Field evaluator (app.js drawField, lines 318-351, and the electric
chart branch, lines 620-641) -/

/-- One grid contribution of `drawField` (lines 324-333): with
`r2 = dx*dx + dy*dy`, a source with `r2 < 16` is skipped; otherwise the
contribution is `(q*dx / r3, q*dy / r3)` with `r3 = Math.pow(r2, 1.5)`.
The center distance `r = sqrt r2` is passed explicitly (callers constrain
it by `0 ≤ r` and `r ^ 2 = dx ^ 2 + dy ^ 2`), so `r3 = r ^ 3`. -/
def gridContrib (q dx dy r : ℚ) : ℚ × ℚ :=
  if dx * dx + dy * dy < 16 then (0, 0)
  else (q * dx / r ^ 3, q * dy / r ^ 3)

/-- The field vector at one grid sample: the accumulation
`Ex += ...; Ey += ...` of lines 323-333 over the two charges. -/
def gridField (q1 dx1 dy1 r1 q2 dx2 dy2 r2 : ℚ) : ℚ × ℚ :=
  ((gridContrib q1 dx1 dy1 r1).1 + (gridContrib q2 dx2 dy2 r2).1,
   (gridContrib q1 dx1 dy1 r1).2 + (gridContrib q2 dx2 dy2 r2).2)

/-- Spec formulation of one grid term (§4.3 of the spec):
`charge · (p − sourcePos) / |p − sourcePos|³`, with the exclusion of a
source whose SQUARED distance is below 16; `r` stands for `|p − sourcePos|`.
Named definition for the refinement comparison with `gridContrib`. -/
def specGridTerm (q dx dy r : ℚ) : ℚ × ℚ :=
  if dx * dx + dy * dy < 16 then (0, 0)
  else (q * dx / (r * r * r), q * dy / (r * r * r))

/-- Per-source scalar of the 1-D probe (chart branch, lines 632-633):
`E1 = (r1 > 0.0001) ? q1/(r1*r1) : 0`. -/
def probeE (q r : ℚ) : ℚ := if 1 / 10000 < r then q / (r * r) else 0

/-- The 1-D probe magnitude at position `x` along the unit segment
(lines 626-636): charges sit at 0.33 and 0.67; with `r_i = |x - c_i|`,
`Emag = Math.abs(E1) + Math.abs(E2)`. -/
def probeEmag (q1 q2 x : ℚ) : ℚ :=
  abs (probeE q1 (abs (x - 33 / 100))) + abs (probeE q2 (abs (x - 67 / 100)))

/-- Spec formulation of the 1-D probe (§4.3(b)): the sum of absolute
per-source magnitudes `|q1|/r1² + |q2|/r2²`.  Named definition for the
refinement comparison with `probeEmag`. -/
def specProbeMag (q1 q2 x : ℚ) : ℚ :=
  |q1| / (x - 33 / 100) ^ 2 + |q2| / (x - 67 / 100) ^ 2

/-! ### NaN-propagating model of the collision branch

For the degenerate zero-distance collision, IEEE semantics matter:
`nx = dx/dist` is `0/0 = NaN` when the centers coincide, and NaN
propagates through every subsequent arithmetic operation.  A JS number is
modelled as `Option ℚ`, `none` standing for NaN.  Division by zero yields
`none`; in the evaluations below the numerator is 0 whenever the divisor
is, so `none` coincides with the IEEE result (no ±infinity arises). -/

/-- NaN-propagating addition. -/
def jadd : Option ℚ → Option ℚ → Option ℚ
  | some a, some b => some (a + b)
  | _, _ => none

/-- NaN-propagating subtraction. -/
def jsub : Option ℚ → Option ℚ → Option ℚ
  | some a, some b => some (a - b)
  | _, _ => none

/-- NaN-propagating multiplication (in IEEE, `x * NaN = NaN` for every x,
including 0). -/
def jmul : Option ℚ → Option ℚ → Option ℚ
  | some a, some b => some (a * b)
  | _, _ => none

/-- NaN-propagating division; division by zero gives `none`. -/
def jdiv : Option ℚ → Option ℚ → Option ℚ
  | some a, some b => if b = 0 then none else some (a / b)
  | _, _ => none

/-- NaN-propagating negation. -/
def jneg : Option ℚ → Option ℚ
  | some a => some (-a)
  | none => none

/-- The collision branch of `update` (app.js lines 229-263) over the
NaN-propagating numbers: inputs are the finite pre-branch values, and
every arithmetic step mirrors the source line by line.  Returns
(velocity1, velocity2, position1, position2). -/
def resolvePairJ (m1 m2 e r1 r2 dist dx dy x1 y1 x2 y2 v1x v1y v2x v2y : ℚ) :
    (Option ℚ × Option ℚ) × (Option ℚ × Option ℚ) ×
    (Option ℚ × Option ℚ) × (Option ℚ × Option ℚ) :=
  if dist ≤ r1 + r2 then
    let nx := jdiv (some dx) (some dist)
    let ny := jdiv (some dy) (some dist)
    let tx := jneg ny
    let ty := nx
    let v1n := jadd (jmul (some v1x) nx) (jmul (some v1y) ny)
    let v1t := jadd (jmul (some v1x) tx) (jmul (some v1y) ty)
    let v2n := jadd (jmul (some v2x) nx) (jmul (some v2y) ny)
    let v2t := jadd (jmul (some v2x) tx) (jmul (some v2y) ty)
    let ec := eClamp e
    let v1np := jdiv (jadd (jadd (jmul (some m1) v1n) (jmul (some m2) v2n))
      (jmul (jmul (some m2) (some ec)) (jsub v2n v1n))) (some (m1 + m2))
    let v2np := jdiv (jadd (jadd (jmul (some m1) v1n) (jmul (some m2) v2n))
      (jmul (jmul (some m1) (some ec)) (jsub v1n v2n))) (some (m1 + m2))
    let corr := ((r1 + r2) - dist) / 2
    ((jadd (jmul v1np nx) (jmul v1t tx), jadd (jmul v1np ny) (jmul v1t ty)),
     (jadd (jmul v2np nx) (jmul v2t tx), jadd (jmul v2np ny) (jmul v2t ty)),
     (jsub (some x1) (jmul nx (some corr)),
      jsub (some y1) (jmul ny (some corr))),
     (jadd (some x2) (jmul nx (some corr)),
      jadd (some y2) (jmul ny (some corr))))
  else ((some v1x, some v1y), (some v2x, some v2y),
        (some x1, some y1), (some x2, some y2))

/-! ### Helper lemmas -/

/-- `resolvePair` depends on the restitution input only through the clamp
of line 244. -/
lemma resolvePair_clamp_congr (e1 e2 dist : ℚ) (b1 b2 : Body)
    (h : eClamp e1 = eClamp e2) :
    resolvePair e1 dist b1 b2 = resolvePair e2 dist b1 b2 := by
  unfold resolvePair
  rw [h]

/-- Reconstructing a velocity from normal and tangential scalars and then
projecting back onto the normal recovers the normal scalar. -/
lemma normComp_reconstruct (nx ny c t : ℚ) (hn : nx ^ 2 + ny ^ 2 = 1) :
    normComp nx ny (c * nx + t * (-ny)) (c * ny + t * nx) = c := by
  simp only [normComp]
  linear_combination c * hn

/-- Reconstructing a velocity from normal and tangential scalars and then
projecting back onto the tangent recovers the tangential scalar. -/
lemma tangComp_reconstruct (nx ny c t : ℚ) (hn : nx ^ 2 + ny ^ 2 = 1) :
    tangComp nx ny (c * nx + t * (-ny)) (c * ny + t * nx) = t := by
  simp only [tangComp]
  linear_combination t * hn

/-- The 1-D restitution formulas conserve momentum for every restitution
value. -/
lemma resolveNormal_momentum (m1 m2 e v1n v2n : ℚ) (hM : m1 + m2 ≠ 0) :
    m1 * (resolveNormal m1 m2 e v1n v2n).1 +
      m2 * (resolveNormal m1 m2 e v1n v2n).2 = m1 * v1n + m2 * v2n := by
  simp only [resolveNormal]
  field_simp
  ring

/-- For `e = 1` the 1-D restitution formulas conserve kinetic energy. -/
lemma resolveNormal_energy (m1 m2 v1n v2n : ℚ) (hM : m1 + m2 ≠ 0) :
    m1 * (resolveNormal m1 m2 1 v1n v2n).1 ^ 2 +
      m2 * (resolveNormal m1 m2 1 v1n v2n).2 ^ 2 =
      m1 * v1n ^ 2 + m2 * v2n ^ 2 := by
  simp only [resolveNormal]
  field_simp
  ring

/-- Pushing below capacity appends. -/
lemma pushTrace_small (tr : List (ℚ × ℚ)) (p : ℚ × ℚ)
    (h : tr.length < 120) : pushTrace tr p = tr ++ [p] := by
  unfold pushTrace
  rw [if_neg]
  simp only [List.length_append, List.length_singleton]
  omega

/-- Pushing at capacity appends and evicts the oldest entry. -/
lemma pushTrace_full (tr : List (ℚ × ℚ)) (p : ℚ × ℚ)
    (h : 120 ≤ tr.length) : pushTrace tr p = (tr ++ [p]).tail := by
  unfold pushTrace
  rw [if_pos]
  simp only [List.length_append, List.length_singleton]
  omega

/-- Folding `pushTrace` over a stream of entries keeps exactly the most
recent 120 of them. -/
lemma foldl_pushTrace_drop (ps : List (ℚ × ℚ)) :
    ps.foldl pushTrace [] = ps.drop (ps.length - 120) := by
  induction ps using List.reverseRecOn with
  | nil => rfl
  | append_singleton l a ih =>
    rw [List.foldl_append, List.foldl_cons, List.foldl_nil, ih]
    rcases Nat.lt_or_ge l.length 120 with h | h
    · rw [Nat.sub_eq_zero_of_le (Nat.le_of_lt h), List.drop_zero,
        pushTrace_small _ a h, List.length_append, List.length_singleton,
        Nat.sub_eq_zero_of_le (by omega), List.drop_zero]
    · have hd : (l.drop (l.length - 120)).length = 120 := by
        rw [List.length_drop]
        omega
      rw [pushTrace_full _ a (le_of_eq hd.symm),
        List.tail_append_of_ne_nil, List.tail_drop, List.length_append,
        List.length_singleton,
        List.drop_append_of_le_length (by omega : l.length + 1 - 120 ≤ l.length)]
      · congr 2
        omega
      · intro hnil
        have hlen := congrArg List.length hnil
        rw [hd] at hlen
        simp at hlen

/-- Unfolding one tick of the trace stream. -/
lemma traceAfter_succ (f : ℕ → ℚ × ℚ) (n : ℕ) :
    traceAfter f (n + 1) = pushTrace (traceAfter f n) (f n) := by
  unfold traceAfter
  rw [List.range_succ, List.foldl_append, List.foldl_cons, List.foldl_nil]

/-- The trace after `n` ticks is the most recent 120 recorded positions. -/
lemma traceAfter_eq_drop (f : ℕ → ℚ × ℚ) (n : ℕ) :
    traceAfter f n = ((List.range n).map f).drop (n - 120) := by
  unfold traceAfter
  rw [← List.foldl_map, foldl_pushTrace_drop, List.length_map,
    List.length_range]

/-- Closed form of `n` circular-motion ticks from the initial state: the
angle advances by `angularSpeed * 0.016` per tick and the trace holds the
recent recorded positions (tick `k`, counted from 0, records the position
at angle `(k+1) * angularSpeed * 0.016`). -/
lemma circ_iter (posFn : ℚ → ℚ × ℚ) (w : ℚ) (n : ℕ) :
    (circStep posFn w)^[n] circInit =
      { angle := (n : ℚ) * (w * (16 / 1000)),
        trace := traceAfter
          (fun k => posFn (((k : ℚ) + 1) * (w * (16 / 1000)))) n,
        running := true } := by
  induction n with
  | zero =>
    simp [circInit, traceAfter]
  | succ n ih =>
    rw [Function.iterate_succ_apply', ih, traceAfter_succ]
    simp only [circStep, if_true]
    have harg : (n : ℚ) * (w * (16 / 1000)) + w * (16 / 1000) =
        ((n : ℚ) + 1) * (w * (16 / 1000)) := by ring
    rw [CircState.mk.injEq]
    refine ⟨by push_cast; ring, ?_, rfl⟩
    rw [harg]

/-! ### Claim theorems -/

/-- C7: the circular-motion trace buffer never exceeds 120 entries; after
200 ticks its length is exactly 120 and its oldest retained entry is the
position recorded at tick 80 (ticks counted from 0), i.e. eviction is
FIFO. -/
theorem circular_trace_fifo (posFn : ℚ → ℚ × ℚ) (w : ℚ) (n : ℕ) :
    ((circStep posFn w)^[n] circInit).trace.length ≤ 120 ∧
    ((circStep posFn w)^[200] circInit).trace.length = 120 ∧
    ((circStep posFn w)^[200] circInit).trace.head? =
      some (posFn (((80 : ℚ) + 1) * (w * (16 / 1000)))) := by
  refine ⟨?_, ?_, ?_⟩
  · rw [circ_iter, traceAfter_eq_drop]
    simp only [List.length_drop, List.length_map, List.length_range]
    omega
  · rw [circ_iter, traceAfter_eq_drop]
    simp only [List.length_drop, List.length_map, List.length_range]
  · rw [circ_iter, traceAfter_eq_drop]
    have h80 : (200 : ℕ) - 120 = 80 := by norm_num
    rw [h80, List.drop_eq_getElem_cons
      (by simp only [List.length_map, List.length_range]; omega)]
    simp

/-- C3 (code bug): pendulumSim and springSim return empty lifecycle
functions, so `pause()` does not stop ticking: the state keeps advancing
after a pause, violating the uniform pause contract that the source file
itself documents (app.js lines 13-17) and that the pause button relies on
(lines 494-503).  Evaluated at the preset parameters. -/
theorem pendulum_spring_pause_noop :
    pendPause (pendInit { length := 16/10, g := 981/100, theta0 := 1/2 }) =
      pendInit { length := 16/10, g := 981/100, theta0 := 1/2 } ∧
    pendStep { length := 16/10, g := 981/100, theta0 := 1/2 } (16/1000)
        (pendPause (pendInit { length := 16/10, g := 981/100, theta0 := 1/2 }))
      ≠ pendInit { length := 16/10, g := 981/100, theta0 := 1/2 } ∧
    springStep { k := 50, m := 3/2, x0 := 6/10 } (16/1000)
        (springPause (springInit { k := 50, m := 3/2, x0 := 6/10 }))
      ≠ springInit { k := 50, m := 3/2, x0 := 6/10 } := by
  refine ⟨rfl, ?_, ?_⟩
  · intro h
    have h2 := congrArg PendState.theta h
    norm_num [pendStep, pendPause, pendInit] at h2
  · intro h
    have h2 := congrArg SpringState.x h
    norm_num [springStep, springPause, springInit] at h2

/-- C4 counterexample: pendulumSim `reset` is a no-op, so after one tick a
reset does NOT restore the initial snapshot derived from the ParameterSet
— the claim that reset rebuilds the state from the current ParameterSet fails
for the pendulum scenario. -/
theorem pendulum_reset_not_initial_cex :
    pendReset (pendStep { length := 16/10, g := 981/100, theta0 := 1/2 }
        (16/1000)
        (pendInit { length := 16/10, g := 981/100, theta0 := 1/2 })) ≠
      pendInit { length := 16/10, g := 981/100, theta0 := 1/2 } := by
  intro h
  have h2 := congrArg PendState.theta h
  norm_num [pendReset, pendStep, pendInit] at h2

/-- C4 amended: reset is idempotent for all six scenarios (two resets in a
row give identical snapshots), but only projectile, circular, collision
and electric actually rebuild their state from the ParameterSet; pendulum and
spring reset is a no-op that leaves the current state in place. -/
theorem reset_idempotent_amended (cp : CollParams) (posFn : ℚ → ℚ × ℚ)
    (q1 q2 W H : ℚ) (s1 : ProjState) (s2 : PendState) (s3 : SpringState)
    (s4 : CircState) (s5 : CollState) (s6 : ElecState) :
    projReset (projReset s1) = projReset s1 ∧
    pendReset (pendReset s2) = pendReset s2 ∧
    springReset (springReset s3) = springReset s3 ∧
    circReset posFn (circReset posFn s4) = circReset posFn s4 ∧
    collReset cp W H (collReset cp W H s5) = collReset cp W H s5 ∧
    elecReset q1 q2 W H (elecReset q1 q2 W H s6) = elecReset q1 q2 W H s6 ∧
    (projReset s1).t = 0 ∧
    (circReset posFn s4).angle = 0 ∧
    (circReset posFn s4).trace = [posFn 0] ∧
    (collReset cp W H s5).b1 = (placeInitial cp W H).1 ∧
    (collReset cp W H s5).b2 = (placeInitial cp W H).2 ∧
    (elecReset q1 q2 W H s6).charges = placeCharges q1 q2 W H ∧
    pendReset s2 = s2 ∧
    springReset s3 = s3 := by
  refine ⟨rfl, rfl, rfl, rfl, rfl, rfl, rfl, rfl, ?_, rfl, rfl, rfl, rfl, rfl⟩
  simp [circReset, pushTrace]

/-- C8 counterexample: resuming projectileSim after a pause does NOT
leave the elapsed time unchanged — `start()` (app.js line 64) zeroes `t`. -/
theorem projectile_start_resets_cex :
    (projStart (projPause { t := 5, running := true })).t ≠
      (projPause { t := 5, running := true }).t := by
  norm_num [projStart, projPause]

/-- C8 amended: `start()` always sets running=true, but only circularSim
leaves the simulation state untouched; projectileSim start resets elapsed
time to 0, collisionSim start re-places both bodies from the
ParameterSet, electricSim start re-derives the charges, and pendulum and
spring start is a no-op. -/
theorem start_behavior_amended (cp : CollParams) (q1 q2 W H : ℚ)
    (s1 : ProjState) (s2 : PendState) (s3 : SpringState) (s4 : CircState)
    (s5 : CollState) (s6 : ElecState) :
    circStart s4 = { s4 with running := true } ∧
    projStart s1 = { t := 0, running := true } ∧
    collStart cp W H s5 =
      { b1 := (placeInitial cp W H).1, b2 := (placeInitial cp W H).2,
        running := true } ∧
    elecStart q1 q2 W H s6 =
      { charges := placeCharges q1 q2 W H, running := true } ∧
    pendStart s2 = s2 ∧
    springStart s3 = s3 :=
  ⟨rfl, rfl, rfl, rfl, rfl, rfl⟩

/-- C9 counterexample: a supplied numeric 0 is NOT used as given — the
chart branches parse with `parseFloat(p) || default`, and 0 is falsy in
JS, so an explicit angle of 0 is replaced by the default 45. -/
theorem zero_param_default_cex :
    projChartAngle (some 0) = 45 ∧ (45 : ℚ) ≠ 0 := by
  norm_num [projChartAngle, orDefault, jsOr]

/-- C9 amended: the chart defaults are substituted when the parameter is
absent or non-numeric (parseFloat gives NaN) AND when it parses to 0,
because `parseFloat(p) || d` treats 0 as falsy; any nonzero numeric value
is used as given. -/
theorem param_default_amended (d x : ℚ) (hx : x ≠ 0) :
    orDefault none d = d ∧ orDefault (some 0) d = d ∧
    orDefault (some x) d = x ∧
    projChartAngle (some 0) = 45 ∧ projChartSpeed none = 25 := by
  refine ⟨rfl, by simp [orDefault, jsOr], ?_,
    by norm_num [projChartAngle, orDefault, jsOr], rfl⟩
  simp [orDefault, jsOr, hx]

/-- Witness for `param_default_amended` at d = 45, x = 7. -/
theorem param_default_amended_witness :
    (7 : ℚ) ≠ 0 ∧
    (orDefault none 45 = 45 ∧ orDefault (some 0) 45 = 45 ∧
      orDefault (some 7) 45 = 7 ∧
      projChartAngle (some 0) = 45 ∧ projChartSpeed none = 25) :=
  ⟨by norm_num, param_default_amended 45 7 (by norm_num)⟩

/-- C2 counterexample: in the analytic before/after summary (app.js lines
609-614) a supplied restitution of 1.5 does NOT behave like 1 — the chart
branch applies no clamp, so the final velocities differ. -/
theorem restitution_chart_unclamped_cex :
    chartCollision (some 2) (some 1) (some 3) (some (-1)) (some (3/2)) ≠
      chartCollision (some 2) (some 1) (some 3) (some (-1)) (some 1) := by
  intro h
  have h2 := congrArg Prod.fst h
  norm_num [chartCollision, orDefault, jsOr] at h2

/-- C2 amended: the per-tick Collision Resolver clamps the restitution
into [0,1] (line 244), so there e=1.5 behaves exactly like e=1 and
e=-0.3 exactly like e=0 for every pair of bodies; the analytic summary
applies no clamp and therefore differs at e=1.5 versus e=1. -/
theorem restitution_clamp_amended (dist : ℚ) (b1 b2 : Body) :
    resolvePair (eRaw (some (3/2))) dist b1 b2 =
      resolvePair (eRaw (some 1)) dist b1 b2 ∧
    resolvePair (eRaw (some (-3/10))) dist b1 b2 =
      resolvePair (eRaw (some 0)) dist b1 b2 ∧
    chartCollision (some 2) (some 1) (some 3) (some (-1)) (some (3/2)) ≠
      chartCollision (some 2) (some 1) (some 3) (some (-1)) (some 1) := by
  refine ⟨resolvePair_clamp_congr _ _ _ _ _ ?_,
    resolvePair_clamp_congr _ _ _ _ _ ?_, ?_⟩
  · norm_num [eClamp, eRaw, min_def, max_def]
  · norm_num [eClamp, eRaw, min_def, max_def]
  · intro h
    have h2 := congrArg Prod.fst h
    norm_num [chartCollision, orDefault, jsOr] at h2

/-- C5 (code bug): with exactly coincident centers the overlap guard
fires (dist = 0 ≤ r1 + r2) and the resolver computes the collision
normal as 0/0, which is NaN in JS; the NaN propagates into all four
post-tick velocity components and all four position components.
Evaluated at masses 2 and 1, radii 20, centers (300, 200), velocities
(60, 0) and (-20, 0) px/s, e = 1. -/
theorem coincident_centers_nan :
    (0 : ℚ) ≤ 20 + 20 ∧
    resolvePairJ 2 1 1 20 20 0 0 0 300 200 300 200 60 0 (-20) 0 =
      ((none, none), (none, none), (none, none), (none, none)) := by
  refine ⟨by norm_num, ?_⟩
  norm_num [resolvePairJ, jdiv, jadd, jmul, jsub, jneg]

/-- C1: inside the collision branch, with unit normal (nx, ny) derived
from the center offset and positive masses, the post-collision normal
velocity components follow the documented restitution formulas, the
tangential components pass through unchanged, normal momentum
m1·v1n + m2·v2n is conserved for every restitution input, and for e = 1
normal kinetic energy is conserved. -/
theorem collision_restitution_update
    (e dist : ℚ) (b1 b2 : Body) (nx ny v1n v2n v1t v2t : ℚ)
    (hm1 : 0 < b1.m) (hm2 : 0 < b2.m) (hd0 : 0 < dist)
    (hd : dist ^ 2 = (b2.x - b1.x) ^ 2 + (b2.y - b1.y) ^ 2)
    (hhit : dist ≤ b1.r + b2.r) (he0 : 0 ≤ e) (he1 : e ≤ 1)
    (hnx : nx = (b2.x - b1.x) / dist) (hny : ny = (b2.y - b1.y) / dist)
    (h1n : v1n = normComp nx ny b1.vx b1.vy)
    (h2n : v2n = normComp nx ny b2.vx b2.vy)
    (h1t : v1t = tangComp nx ny b1.vx b1.vy)
    (h2t : v2t = tangComp nx ny b2.vx b2.vy) :
    normComp nx ny (resolvePair e dist b1 b2).1.vx
        (resolvePair e dist b1 b2).1.vy =
      (b1.m * v1n + b2.m * v2n + b2.m * e * (v2n - v1n)) / (b1.m + b2.m) ∧
    normComp nx ny (resolvePair e dist b1 b2).2.vx
        (resolvePair e dist b1 b2).2.vy =
      (b1.m * v1n + b2.m * v2n + b1.m * e * (v1n - v2n)) / (b1.m + b2.m) ∧
    tangComp nx ny (resolvePair e dist b1 b2).1.vx
        (resolvePair e dist b1 b2).1.vy = v1t ∧
    tangComp nx ny (resolvePair e dist b1 b2).2.vx
        (resolvePair e dist b1 b2).2.vy = v2t ∧
    (∀ e2 : ℚ,
      b1.m * normComp nx ny (resolvePair e2 dist b1 b2).1.vx
          (resolvePair e2 dist b1 b2).1.vy +
        b2.m * normComp nx ny (resolvePair e2 dist b1 b2).2.vx
          (resolvePair e2 dist b1 b2).2.vy =
        b1.m * v1n + b2.m * v2n) ∧
    (e = 1 →
      b1.m * normComp nx ny (resolvePair e dist b1 b2).1.vx
            (resolvePair e dist b1 b2).1.vy ^ 2 +
        b2.m * normComp nx ny (resolvePair e dist b1 b2).2.vx
            (resolvePair e dist b1 b2).2.vy ^ 2 =
        b1.m * v1n ^ 2 + b2.m * v2n ^ 2) := by
  subst hnx hny h1n h2n h1t h2t
  have hdist : dist ≠ 0 := ne_of_gt hd0
  have hM : b1.m + b2.m ≠ 0 := by positivity
  have hn : ((b2.x - b1.x) / dist) ^ 2 + ((b2.y - b1.y) / dist) ^ 2 = 1 := by
    rw [div_pow, div_pow, div_add_div_same, ← hd,
      div_self (pow_ne_zero 2 hdist)]
  have hce : eClamp e = e := by
    unfold eClamp
    rw [min_eq_right he1, max_eq_right he0]
  refine ⟨?_, ?_, ?_, ?_, ?_, ?_⟩
  · simp only [resolvePair, if_pos hhit]
    rw [normComp_reconstruct _ _ _ _ hn, hce]
    simp only [resolveNormal]
  · simp only [resolvePair, if_pos hhit]
    rw [normComp_reconstruct _ _ _ _ hn, hce]
    simp only [resolveNormal]
  · simp only [resolvePair, if_pos hhit]
    rw [tangComp_reconstruct _ _ _ _ hn]
  · simp only [resolvePair, if_pos hhit]
    rw [tangComp_reconstruct _ _ _ _ hn]
  · intro e2
    simp only [resolvePair, if_pos hhit]
    rw [normComp_reconstruct _ _ _ _ hn, normComp_reconstruct _ _ _ _ hn]
    exact resolveNormal_momentum _ _ _ _ _ hM
  · intro he
    subst he
    simp only [resolvePair, if_pos hhit]
    rw [normComp_reconstruct _ _ _ _ hn, normComp_reconstruct _ _ _ _ hn,
      hce]
    exact resolveNormal_energy _ _ _ _ hM

/-- Witness for `collision_restitution_update`: bodies of masses 2 and 1,
radius 3, at (0,0) and (5,0) (dist = 5 ≤ 6), velocities (3,0) and (-1,0),
e = 1, so the normal is (1,0) and v1n = 3, v2n = -1, v1t = v2t = 0. -/
theorem collision_restitution_update_witness :
    ((0 : ℚ) < 2 ∧ (0 : ℚ) < 1 ∧ (0 : ℚ) < 5 ∧
      (5 : ℚ) ^ 2 = (5 - 0) ^ 2 + (0 - 0) ^ 2 ∧ (5 : ℚ) ≤ 3 + 3 ∧
      (0 : ℚ) ≤ 1 ∧ (1 : ℚ) ≤ 1 ∧
      (1 : ℚ) = (5 - 0) / 5 ∧ (0 : ℚ) = (0 - 0) / 5 ∧
      (3 : ℚ) = normComp 1 0 3 0 ∧ (-1 : ℚ) = normComp 1 0 (-1) 0 ∧
      (0 : ℚ) = tangComp 1 0 3 0 ∧ (0 : ℚ) = tangComp 1 0 (-1) 0) ∧
    (normComp 1 0
        (resolvePair 1 5 ⟨0, 0, 3, 0, 3, 2⟩ ⟨5, 0, -1, 0, 3, 1⟩).1.vx
        (resolvePair 1 5 ⟨0, 0, 3, 0, 3, 2⟩ ⟨5, 0, -1, 0, 3, 1⟩).1.vy =
      (2 * 3 + 1 * (-1) + 1 * 1 * (-1 - 3)) / (2 + 1) ∧
    normComp 1 0
        (resolvePair 1 5 ⟨0, 0, 3, 0, 3, 2⟩ ⟨5, 0, -1, 0, 3, 1⟩).2.vx
        (resolvePair 1 5 ⟨0, 0, 3, 0, 3, 2⟩ ⟨5, 0, -1, 0, 3, 1⟩).2.vy =
      (2 * 3 + 1 * (-1) + 2 * 1 * (3 - -1)) / (2 + 1) ∧
    tangComp 1 0
        (resolvePair 1 5 ⟨0, 0, 3, 0, 3, 2⟩ ⟨5, 0, -1, 0, 3, 1⟩).1.vx
        (resolvePair 1 5 ⟨0, 0, 3, 0, 3, 2⟩ ⟨5, 0, -1, 0, 3, 1⟩).1.vy = 0 ∧
    tangComp 1 0
        (resolvePair 1 5 ⟨0, 0, 3, 0, 3, 2⟩ ⟨5, 0, -1, 0, 3, 1⟩).2.vx
        (resolvePair 1 5 ⟨0, 0, 3, 0, 3, 2⟩ ⟨5, 0, -1, 0, 3, 1⟩).2.vy = 0 ∧
    (∀ e2 : ℚ,
      2 * normComp 1 0
          (resolvePair e2 5 ⟨0, 0, 3, 0, 3, 2⟩ ⟨5, 0, -1, 0, 3, 1⟩).1.vx
          (resolvePair e2 5 ⟨0, 0, 3, 0, 3, 2⟩ ⟨5, 0, -1, 0, 3, 1⟩).1.vy +
        1 * normComp 1 0
          (resolvePair e2 5 ⟨0, 0, 3, 0, 3, 2⟩ ⟨5, 0, -1, 0, 3, 1⟩).2.vx
          (resolvePair e2 5 ⟨0, 0, 3, 0, 3, 2⟩ ⟨5, 0, -1, 0, 3, 1⟩).2.vy =
        2 * 3 + 1 * (-1)) ∧
    ((1 : ℚ) = 1 →
      2 * normComp 1 0
            (resolvePair 1 5 ⟨0, 0, 3, 0, 3, 2⟩ ⟨5, 0, -1, 0, 3, 1⟩).1.vx
            (resolvePair 1 5 ⟨0, 0, 3, 0, 3, 2⟩ ⟨5, 0, -1, 0, 3, 1⟩).1.vy ^ 2 +
        1 * normComp 1 0
            (resolvePair 1 5 ⟨0, 0, 3, 0, 3, 2⟩ ⟨5, 0, -1, 0, 3, 1⟩).2.vx
            (resolvePair 1 5 ⟨0, 0, 3, 0, 3, 2⟩ ⟨5, 0, -1, 0, 3, 1⟩).2.vy ^ 2 =
        2 * 3 ^ 2 + 1 * (-1) ^ 2)) :=
  ⟨⟨by norm_num, by norm_num, by norm_num, by norm_num, by norm_num,
    by norm_num, by norm_num, by norm_num [normComp],
    by norm_num [normComp], by norm_num [normComp], by norm_num [normComp],
    by norm_num [tangComp], by norm_num [tangComp]⟩,
   collision_restitution_update 1 5 ⟨0, 0, 3, 0, 3, 2⟩ ⟨5, 0, -1, 0, 3, 1⟩
     1 0 3 (-1) 0 0 (by norm_num) (by norm_num) (by norm_num)
     (by norm_num) (by norm_num) (by norm_num) (by norm_num)
     (by norm_num) (by norm_num) (by norm_num [normComp])
     (by norm_num [normComp]) (by norm_num [tangComp])
     (by norm_num [tangComp])⟩

/-- C10: with strictly positive center distance `dist ≤ r1 + r2`, the
positional correction moves each body by (r1 + r2 - dist)/2 along the
collision normal, in opposite directions, and the resulting center
distance is exactly r1 + r2 (stated on squares, which is equivalent in
exact arithmetic since both sides are nonnegative): the bodies end the
resolution exactly touching. -/
theorem positional_correction_touching (e dist : ℚ) (b1 b2 : Body)
    (hd0 : 0 < dist) (hhit : dist ≤ b1.r + b2.r)
    (hd : dist ^ 2 = (b2.x - b1.x) ^ 2 + (b2.y - b1.y) ^ 2) :
    ((resolvePair e dist b1 b2).1.x - b1.x) ^ 2 +
        ((resolvePair e dist b1 b2).1.y - b1.y) ^ 2 =
      ((b1.r + b2.r - dist) / 2) ^ 2 ∧
    (resolvePair e dist b1 b2).2.x - b2.x =
      -((resolvePair e dist b1 b2).1.x - b1.x) ∧
    (resolvePair e dist b1 b2).2.y - b2.y =
      -((resolvePair e dist b1 b2).1.y - b1.y) ∧
    ((resolvePair e dist b1 b2).2.x - (resolvePair e dist b1 b2).1.x) ^ 2 +
        ((resolvePair e dist b1 b2).2.y - (resolvePair e dist b1 b2).1.y) ^ 2 =
      (b1.r + b2.r) ^ 2 := by
  have hdist : dist ≠ 0 := ne_of_gt hd0
  have hn : ((b2.x - b1.x) / dist) ^ 2 + ((b2.y - b1.y) / dist) ^ 2 = 1 := by
    rw [div_pow, div_pow, div_add_div_same, ← hd,
      div_self (pow_ne_zero 2 hdist)]
  refine ⟨?_, ?_, ?_, ?_⟩ <;> simp only [resolvePair, if_pos hhit]
  · linear_combination ((b1.r + b2.r - dist) / 2) ^ 2 * hn
  · ring
  · ring
  · field_simp
    linear_combination (-4 * (b1.r + b2.r) ^ 2) * hd

/-- Witness for `positional_correction_touching`: bodies of radii 2 and 4
at (0,0) and (3,4) (dist = 5 ≤ 6). -/
theorem positional_correction_touching_witness :
    ((0 : ℚ) < 5 ∧ (5 : ℚ) ≤ 2 + 4 ∧
      (5 : ℚ) ^ 2 = (3 - 0) ^ 2 + (4 - 0) ^ 2) ∧
    (((resolvePair 1 5 ⟨0, 0, 0, 0, 2, 2⟩ ⟨3, 4, 0, 0, 4, 1⟩).1.x - 0) ^ 2 +
        ((resolvePair 1 5 ⟨0, 0, 0, 0, 2, 2⟩ ⟨3, 4, 0, 0, 4, 1⟩).1.y - 0) ^ 2 =
      ((2 + 4 - 5) / 2) ^ 2 ∧
    (resolvePair 1 5 ⟨0, 0, 0, 0, 2, 2⟩ ⟨3, 4, 0, 0, 4, 1⟩).2.x - 3 =
      -((resolvePair 1 5 ⟨0, 0, 0, 0, 2, 2⟩ ⟨3, 4, 0, 0, 4, 1⟩).1.x - 0) ∧
    (resolvePair 1 5 ⟨0, 0, 0, 0, 2, 2⟩ ⟨3, 4, 0, 0, 4, 1⟩).2.y - 4 =
      -((resolvePair 1 5 ⟨0, 0, 0, 0, 2, 2⟩ ⟨3, 4, 0, 0, 4, 1⟩).1.y - 0) ∧
    ((resolvePair 1 5 ⟨0, 0, 0, 0, 2, 2⟩ ⟨3, 4, 0, 0, 4, 1⟩).2.x -
          (resolvePair 1 5 ⟨0, 0, 0, 0, 2, 2⟩ ⟨3, 4, 0, 0, 4, 1⟩).1.x) ^ 2 +
        ((resolvePair 1 5 ⟨0, 0, 0, 0, 2, 2⟩ ⟨3, 4, 0, 0, 4, 1⟩).2.y -
          (resolvePair 1 5 ⟨0, 0, 0, 0, 2, 2⟩ ⟨3, 4, 0, 0, 4, 1⟩).1.y) ^ 2 =
      (2 + 4) ^ 2) :=
  ⟨⟨by norm_num, by norm_num, by norm_num⟩,
   positional_correction_touching 1 5 ⟨0, 0, 0, 0, 2, 2⟩ ⟨3, 4, 0, 0, 4, 1⟩
     (by norm_num) (by norm_num) (by norm_num)⟩

/-- Away from the near-source guard, the probe scalar has absolute value
|q| / r². -/
lemma probeE_abs (q y : ℚ) (hy : 1 / 10000 < |y|) :
    abs (probeE q |y|) = |q| / y ^ 2 := by
  unfold probeE
  rw [if_pos hy, abs_div,
    abs_of_nonneg (mul_nonneg (abs_nonneg y) (abs_nonneg y)),
    abs_mul_abs_self, ← pow_two]

/-- C6: the 2-D grid evaluator returns the signed vector sum of
charge · (p - source) / r³ over the two sources, excluding a source whose
squared distance is below 16 (specGridTerm is the spec formulation);
whereas the 1-D probe returns the sum of ABSOLUTE per-source magnitudes
|q1|/r1² + |q2|/r2² (specProbeMag), which differs from the magnitude of
the signed sum, e.g. at the midpoint of two opposite charges. -/
theorem field_grid_probe_spec (q1 q2 dx1 dy1 r1 dx2 dy2 r2 x : ℚ)
    (hr1 : 0 ≤ r1) (h1 : r1 ^ 2 = dx1 ^ 2 + dy1 ^ 2)
    (hr2 : 0 ≤ r2) (h2 : r2 ^ 2 = dx2 ^ 2 + dy2 ^ 2)
    (hx1 : 1 / 10000 < |x - 33 / 100|) (hx2 : 1 / 10000 < |x - 67 / 100|) :
    gridContrib q1 dx1 dy1 r1 = specGridTerm q1 dx1 dy1 r1 ∧
    gridContrib q2 dx2 dy2 r2 = specGridTerm q2 dx2 dy2 r2 ∧
    gridField q1 dx1 dy1 r1 q2 dx2 dy2 r2 =
      ((specGridTerm q1 dx1 dy1 r1).1 + (specGridTerm q2 dx2 dy2 r2).1,
       (specGridTerm q1 dx1 dy1 r1).2 + (specGridTerm q2 dx2 dy2 r2).2) ∧
    probeEmag q1 q2 x = specProbeMag q1 q2 x ∧
    probeEmag 3 (-3) (1 / 2) ≠
      abs (probeE 3 (17 / 100) + probeE (-3) (17 / 100)) := by
  have hcontrib : ∀ q dx dy r : ℚ,
      gridContrib q dx dy r = specGridTerm q dx dy r := by
    intro q dx dy r
    unfold gridContrib specGridTerm
    split_ifs with h
    · rfl
    · exact Prod.ext (by ring) (by ring)
  refine ⟨hcontrib q1 dx1 dy1 r1, hcontrib q2 dx2 dy2 r2, ?_, ?_, ?_⟩
  · rw [gridField, hcontrib, hcontrib]
  · rw [probeEmag, specProbeMag, probeE_abs q1 _ hx1, probeE_abs q2 _ hx2]
  · have e1 : |(1 : ℚ) / 2 - 33 / 100| = 17 / 100 := by
      rw [show (1 : ℚ) / 2 - 33 / 100 = 17 / 100 from by norm_num,
        abs_of_pos (by norm_num : (0 : ℚ) < 17 / 100)]
    have e2 : |(1 : ℚ) / 2 - 67 / 100| = 17 / 100 := by
      rw [show (1 : ℚ) / 2 - 67 / 100 = -(17 / 100) from by norm_num,
        abs_neg, abs_of_pos (by norm_num : (0 : ℚ) < 17 / 100)]
    have p1 : probeE 3 (17 / 100) = 30000 / 289 := by
      unfold probeE
      rw [if_pos (by norm_num : (1 : ℚ) / 10000 < 17 / 100)]
      norm_num
    have p2 : probeE (-3) (17 / 100) = -(30000 / 289) := by
      unfold probeE
      rw [if_pos (by norm_num : (1 : ℚ) / 10000 < 17 / 100)]
      norm_num
    rw [probeEmag, e1, e2, p1, p2, abs_neg,
      abs_of_pos (by norm_num : (0 : ℚ) < 30000 / 289),
      show (30000 : ℚ) / 289 + -(30000 / 289) = 0 from by ring, abs_zero]
    norm_num

/-- Witness for `field_grid_probe_spec`: charges 3 and -3, offsets (3,4)
at distance 5 and (6,8) at distance 10, probe position x = 0. -/
theorem field_grid_probe_spec_witness :
    ((0 : ℚ) ≤ 5 ∧ (5 : ℚ) ^ 2 = 3 ^ 2 + 4 ^ 2 ∧
      (0 : ℚ) ≤ 10 ∧ (10 : ℚ) ^ 2 = 6 ^ 2 + 8 ^ 2 ∧
      (1 : ℚ) / 10000 < |(0 : ℚ) - 33 / 100| ∧
      (1 : ℚ) / 10000 < |(0 : ℚ) - 67 / 100|) ∧
    (gridContrib 3 3 4 5 = specGridTerm 3 3 4 5 ∧
    gridContrib (-3) 6 8 10 = specGridTerm (-3) 6 8 10 ∧
    gridField 3 3 4 5 (-3) 6 8 10 =
      ((specGridTerm 3 3 4 5).1 + (specGridTerm (-3) 6 8 10).1,
       (specGridTerm 3 3 4 5).2 + (specGridTerm (-3) 6 8 10).2) ∧
    probeEmag 3 (-3) 0 = specProbeMag 3 (-3) 0 ∧
    probeEmag 3 (-3) (1 / 2) ≠
      abs (probeE 3 (17 / 100) + probeE (-3) (17 / 100))) := by
  have hx1 : (1 : ℚ) / 10000 < |(0 : ℚ) - 33 / 100| := by
    rw [show (0 : ℚ) - 33 / 100 = -(33 / 100) from by norm_num, abs_neg,
      abs_of_pos (by norm_num : (0 : ℚ) < 33 / 100)]
    norm_num
  have hx2 : (1 : ℚ) / 10000 < |(0 : ℚ) - 67 / 100| := by
    rw [show (0 : ℚ) - 67 / 100 = -(67 / 100) from by norm_num, abs_neg,
      abs_of_pos (by norm_num : (0 : ℚ) < 67 / 100)]
    norm_num
  exact ⟨⟨by norm_num, by norm_num, by norm_num, by norm_num, hx1, hx2⟩,
    field_grid_probe_spec 3 (-3) 3 4 5 6 8 10 0 (by norm_num) (by norm_num)
      (by norm_num) (by norm_num) hx1 hx2⟩

end Simul8
